import Mathlib

/-!
Verification development for the pymeasure instrument-driver repository
(drivers `AgilentU2040X`, `RohdeFSQ`, `RohdeSMB100A`).

The three driver files under `src/` declare properties through the
pymeasure property-descriptor engine (`Instrument.control`,
`Instrument.setting`, `Instrument.measurement`) and the validator
functions (`strict_discrete_set`, `truncated_discrete_set`,
`strict_range`).  The engine and the validators themselves live in the
pymeasure package outside the three files, so they are modelled here
from the specification (each such definition's doc comment says so);
everything the drivers declare (command templates, value lists,
validator choices, check flags, the hand-written `@property` getters and
setters, the marker helpers and `get_harmonics`) is translated directly
from the source files.

Numeric values are modelled as rationals; the instrument session is a
stub record holding a queue of raw responses, an error queue for
`next_error`, and a log of every command sent on the wire.
-/

/-- Typed errors of the descriptor engine (spec section 7). -/
inductive PError where
  | invalidValue (reason : String)
  | protocolError (reason : String)
  | instrumentError (code : Int) (message : String)
deriving DecidableEq, Repr

/-- Stub instrument session: a queue of raw response strings served by
`ask`, the instrument error queue served by `next_error`, and the log of
every command string sent on the wire (by `write` or by the write half
of `ask`). -/
structure Session where
  responses : List String
  errorQueue : List (Int × String)
  sent : List String
deriving DecidableEq, Repr

/-- `write(command)`: fire-and-forget, appends the command to the wire log. -/
def Session.send (s : Session) (cmd : String) : Session :=
  { s with sent := s.sent ++ [cmd] }

/-- `ask(command) -> string`: logs the command and pops the next queued
raw response (empty string when the stub's queue is exhausted). -/
def Session.query (s : Session) (cmd : String) : String × Session :=
  match s.responses with
  | [] => ("", { s with sent := s.sent ++ [cmd] })
  | r :: rest => (r, { s with responses := rest, sent := s.sent ++ [cmd] })

/-- `next_error() -> (code, message)`: pops the error queue, returning
`(0, "")` when the queue is empty. -/
def Session.nextError (s : Session) : (Int × String) × Session :=
  match s.errorQueue with
  | [] => ((0, ""), s)
  | e :: rest => (e, { s with errorQueue := rest })

/-- A fresh stub session with nothing queued and nothing sent. -/
def stubSession : Session := ⟨[], [], []⟩

deriving instance DecidableEq for Except

/-! ### Python string formatting -/

/-- Splits a character list at every occurrence of a one-character
separator (Python `s.split(sep)` for a single-character `sep`). -/
def splitOneCharAux (sep : Char) : List Char → List Char → List String
  | [], acc => [String.mk acc.reverse]
  | a :: rest, acc =>
    if a = sep then String.mk acc.reverse :: splitOneCharAux sep rest []
    else splitOneCharAux sep rest (a :: acc)

/-- Entry point of `splitOneCharAux` with an empty accumulator. -/
def splitOneChar (sep : Char) (l : List Char) : List String :=
  splitOneCharAux sep l []

/-- Splits a character list at every occurrence of the two-character
separator `c1 c2` (Python `s.split(sep)` for a two-character `sep`). -/
def splitTwoCharAux (c1 c2 : Char) : List Char → List Char → List String
  | [], acc => [String.mk acc.reverse]
  | [a], acc => [String.mk (a :: acc).reverse]
  | a :: b :: rest, acc =>
    if a = c1 ∧ b = c2 then String.mk acc.reverse :: splitTwoCharAux c1 c2 rest []
    else splitTwoCharAux c1 c2 (b :: rest) (a :: acc)

/-- Entry point of `splitTwoCharAux` with an empty accumulator. -/
def splitTwoChar (c1 c2 : Char) (l : List Char) : List String :=
  splitTwoCharAux c1 c2 l []

/-- Interleaves template fragments with argument strings, the way
Python's `str.format` splices its arguments at the substitution sites. -/
def spliceArgs : List String → List String → String
  | [], _ => ""
  | [p], _ => p
  | p :: ps, [] => p ++ spliceArgs ps []
  | p :: ps, a :: rest => p ++ a ++ spliceArgs ps rest

/-- Joins string fragments with a separator (Python `sep.join(parts)`). -/
def joinWith (sep : String) : List String → String
  | [] => ""
  | [x] => x
  | x :: xs => x ++ sep ++ joinWith sep xs

/-- Python `tmpl.format(args...)` with positional `\x7b\x7d` sites. -/
def pyFormat (tmpl : String) (args : List String) : String :=
  spliceArgs (splitTwoChar '\x7b' '\x7d' tmpl.data) args

/-- Python `tmpl % token` for a template holding one `%s` site. -/
def formatWrite (tmpl token : String) : String :=
  joinWith token (splitTwoChar '%' 's' tmpl.data)

/-- Python `str` of a numeric value, restricted to the rationals the
drivers actually send: an integral value prints with no fractional
part. -/
def formatNum (q : ℚ) : String :=
  if q.den = 1 then toString q.num else toString q

/-- Natural number denoted by a digit string (helper for `parseDecimal`). -/
def natOfDigits (s : String) : Nat :=
  s.data.foldl (fun n c => n * 10 + (c.toNat - 48)) 0

/-- Python `float(s)` on plain decimal notation: optional sign, digits,
optional fractional part, value taken exactly.  Returns `none` where
Python would raise `ValueError`. -/
def parseDecimal (s : String) : Option ℚ :=
  let (sgn, body) :=
    match s.data with
    | '-' :: rest => ((-1 : Int), rest)
    | '+' :: rest => ((1 : Int), rest)
    | l => ((1 : Int), l)
  match splitOneChar '.' body with
  | [i] =>
    if i.length > 0 ∧ i.data.all Char.isDigit then
      some (mkRat (sgn * natOfDigits i) 1)
    else none
  | [i, f] =>
    if (i.length > 0 ∨ f.length > 0) ∧ i.data.all Char.isDigit ∧ f.data.all Char.isDigit then
      some (mkRat (sgn * (natOfDigits i * 10 ^ f.length + natOfDigits f)) (10 ^ f.length))
    else none
  | _ => none

/-- Parses a comma-separated response into rationals, as
`[float(x) for x in read_value.split(",")]` does; `none` when any field
fails to parse. -/
def parseFloatList (raw : String) : Option (List ℚ) :=
  (splitOneChar ',' raw.data).mapM parseDecimal

/-! ### Validators

The validator functions live in `pymeasure.instruments.validators`,
outside the three source files; they are modelled from the
specification (section 4.1). -/

/-- Modelled from the spec: `strict_discrete_set` (section 4.1
`DiscreteSet`), missing from `src/`.  Equality membership test against
`allowed`; fails with `InvalidValue` reason "not a member" when the
value is absent. -/
def strict_discrete_set {α : Type} [DecidableEq α] (value : α) (values : List α) :
    Except PError α :=
  if value ∈ values then .ok value else .error (.invalidValue "not a member")

/-- Minimum of a value list (Python `min(values)`). -/
def listMin (v : ℚ) (vs : List ℚ) : ℚ := vs.foldl min v

/-- Maximum of a value list (Python `max(values)`). -/
def listMax (v : ℚ) (vs : List ℚ) : ℚ := vs.foldl max v

/-- Modelled from the spec: `strict_range` (section 4.1 `Range`),
missing from `src/`.  Rejects values outside `[min(values), max(values)]`
with `InvalidValue` reason "out of range"; boundary values are accepted
and values in range pass through unchanged — no snapping. -/
def strict_range (value : ℚ) (values : List ℚ) : Except PError ℚ :=
  match values with
  | [] => .error (.invalidValue "out of range")
  | v :: vs =>
    if listMin v vs ≤ value ∧ value ≤ listMax v vs then .ok value
    else .error (.invalidValue "out of range")

/-- Clamp of `value` to `[lo, hi]`. -/
def clampQ (value lo hi : ℚ) : ℚ := max lo (min value hi)

/-- Element of `best :: l` closest to `c` by absolute distance, ties
broken toward the lower element (helper for `truncated_discrete_set`). -/
def nearestTieLow (c : ℚ) : List ℚ → ℚ → ℚ
  | [], best => best
  | a :: rest, best =>
    nearestTieLow c rest
      (if |c - a| < |c - best| ∨ (|c - a| = |c - best| ∧ a < best) then a else best)

/-- Modelled from the spec: `truncated_discrete_set` (section 4.1
`TruncatedDiscreteSet`), missing from `src/`.  Clamps the value to
`[min(values), max(values)]`, then snaps to the closest element of
`values` by absolute numeric distance, ties broken toward the lower
neighbor; fails only when `values` is empty. -/
def truncated_discrete_set (value : ℚ) (values : List ℚ) : Except PError ℚ :=
  match values with
  | [] => .error (.invalidValue "empty allowed set")
  | v :: vs => .ok (nearestTieLow (clampQ value (listMin v vs) (listMax v vs)) vs v)

/-! ### Property descriptor engine

`Instrument.control` / `Instrument.setting` / `Instrument.measurement`
live in the pymeasure package outside the three source files; the
get/set state machines are modelled from the specification
(sections 4.2–4.5). -/

/-- Modelled from the spec: a Property Spec record (section 3), missing
from `src/`: optional query and write templates, optional validator,
wire conversion in both directions, and the error-check flags. -/
structure PropertySpec (α : Type) where
  queryCmd : Option String
  writeCmd : Option String
  validator : Option (α → Except PError α)
  toWire : α → String
  fromWire : String → Option α
  checkOnGet : Bool
  checkOnSet : Bool

/-- Modelled from the spec: the error-check hook (section 4.4), missing
from `src/`: issue `next_error()` and fail with `InstrumentError` when
the returned code is non-zero. -/
def errorCheck (s : Session) : Except PError Unit × Session :=
  let (e, s') := s.nextError
  if e.1 ≠ 0 then (.error (.instrumentError e.1 e.2), s') else (.ok (), s')

/-- Modelled from the spec: the descriptor set path (section 4.5),
missing from `src/`: validate (aborting before any I/O on failure),
convert to the wire token, splice it into the write template and send
it, then optionally run the error check.  The session is returned in
every outcome — performed I/O is never undone. -/
def doSet {α : Type} (p : PropertySpec α) (v : α) (s : Session) :
    Except PError Unit × Session :=
  match p.writeCmd with
  | none => (.error (.protocolError "property is not writable"), s)
  | some tmpl =>
    match (match p.validator with | none => .ok v | some f => f v : Except PError α) with
    | .error e => (.error e, s)
    | .ok v' =>
      let s' := s.send (formatWrite tmpl (p.toWire v'))
      if p.checkOnSet then errorCheck s' else (.ok (), s')

/-- Modelled from the spec: the descriptor get path (section 4.5),
missing from `src/`: send the query template via `ask`, optionally run
the error check, then parse the raw response. -/
def doGet {α : Type} (p : PropertySpec α) (s : Session) :
    Except PError α × Session :=
  match p.queryCmd with
  | none => (.error (.protocolError "property is not readable"), s)
  | some q =>
    let (raw, s') := s.query q
    match (if p.checkOnGet then errorCheck s' else (.ok (), s') :
        Except PError Unit × Session) with
    | (.error e, s'') => (.error e, s'')
    | (.ok _, s'') =>
      match p.fromWire raw with
      | none => (.error (.protocolError "unparsed response"), s'')
      | some v => (.ok v, s'')

/-! ### AgilentU2040X driver declarations (from `agilentU2040X.py`) -/

namespace AgilentU2040X

/-- `self.freq_unit = 'GHz'` in `__init__`. -/
def initialFreqUnit : String := "GHz"

/-- Getter of the `freq` property: `value = self.ask('FREQ?'); return value`. -/
def freq_get (s : Session) : String × Session := s.query "FREQ?"

/-- Setter of the `freq` property:
`self.write('FREQ \x7b\x7d\x7b\x7d'.format(value, self.freq_unit))`. -/
def freq_set (freq_unit : String) (value : ℚ) (s : Session) : Session :=
  s.send (pyFormat "FREQ \x7b\x7d\x7b\x7d" [formatNum value, freq_unit])

/-- `continuous_mode = Instrument.control('INIT:CONT?', 'INIT:CONT %s',
validator=strict_discrete_set, values=['OFF', 'ON'])` — no check flags. -/
def continuous_mode : PropertySpec String :=
  { queryCmd := some "INIT:CONT?"
    writeCmd := some "INIT:CONT %s"
    validator := some (fun v => strict_discrete_set v ["OFF", "ON"])
    toWire := id
    fromWire := some
    checkOnGet := false
    checkOnSet := false }

end AgilentU2040X

/-! ### RohdeFSQ driver declarations (from `rohdeFSQ.py`) -/

namespace RohdeFSQ

/-- `self.freq_unit = "GHz"` in `__init__`. -/
def initialFreqUnit : String := "GHz"

/-- Setter of `center_freq`: `self.write(":FREQ:CENT \x7b\x7d\x7b\x7d".format(value, self.freq_unit))`. -/
def center_freq_set (freq_unit : String) (value : ℚ) (s : Session) : Session :=
  s.send (pyFormat ":FREQ:CENT \x7b\x7d\x7b\x7d" [formatNum value, freq_unit])

/-- Setter of `freq_span`. -/
def freq_span_set (freq_unit : String) (value : ℚ) (s : Session) : Session :=
  s.send (pyFormat ":FREQ:SPAN \x7b\x7d\x7b\x7d" [formatNum value, freq_unit])

/-- Setter of `freq_start`. -/
def freq_start_set (freq_unit : String) (value : ℚ) (s : Session) : Session :=
  s.send (pyFormat ":FREQ:STAR \x7b\x7d\x7b\x7d" [formatNum value, freq_unit])

/-- Setter of `freq_stop`. -/
def freq_stop_set (freq_unit : String) (value : ℚ) (s : Session) : Session :=
  s.send (pyFormat ":FREQ:STOP \x7b\x7d\x7b\x7d" [formatNum value, freq_unit])

/-- Setter of `res_bw`: `self.write("BAND \x7b\x7d\x7b\x7d".format(value, self.freq_unit))`. -/
def res_bw_set (freq_unit : String) (value : ℚ) (s : Session) : Session :=
  s.send (pyFormat "BAND \x7b\x7d\x7b\x7d" [formatNum value, freq_unit])

/-- Setter of `video_bw`. -/
def video_bw_set (freq_unit : String) (value : ℚ) (s : Session) : Session :=
  s.send (pyFormat "BAND:VID \x7b\x7d\x7b\x7d" [formatNum value, freq_unit])

/-- `freq_mode = Instrument.control('FREQ:MODE?', 'FREQ:MODE %s',
validator=strict_discrete_set, values=['FIXED', 'SWEEP'],
check_get_errors=True, check_set_errors=True)`. -/
def freq_mode : PropertySpec String :=
  { queryCmd := some "FREQ:MODE?"
    writeCmd := some "FREQ:MODE %s"
    validator := some (fun v => strict_discrete_set v ["FIXED", "SWEEP"])
    toWire := id
    fromWire := some
    checkOnGet := true
    checkOnSet := true }

/-- `sweep_points = Instrument.control('SWE:POIN?', 'SWE   :POIN %s',
validator=strict_discrete_set,
values=[155, 313, 625, 1251, 1999, 2501, 5001, 10001, 20001, 30001],
check_get_errors=True, check_set_errors=True)` — note the extra spaces
inside the write template of the source. -/
def sweepPointsValues : List ℚ :=
  [155, 313, 625, 1251, 1999, 2501, 5001, 10001, 20001, 30001]

/-- The `sweep_points` property. -/
def sweep_points : PropertySpec ℚ :=
  { queryCmd := some "SWE:POIN?"
    writeCmd := some "SWE   :POIN %s"
    validator := some (fun v => strict_discrete_set v sweepPointsValues)
    toWire := formatNum
    fromWire := parseDecimal
    checkOnGet := true
    checkOnSet := true }

/-- `continuous_mode = Instrument.control('INIT:CONT?', 'INIT:CONT %s',
validator=strict_discrete_set, values=['OFF', 'ON'],
check_set_errors=True, check_get_errors=True)`. -/
def continuous_mode : PropertySpec String :=
  { queryCmd := some "INIT:CONT?"
    writeCmd := some "INIT:CONT %s"
    validator := some (fun v => strict_discrete_set v ["OFF", "ON"])
    toWire := id
    fromWire := some
    checkOnGet := true
    checkOnSet := true }

/-- `nharmonics = Instrument.setting('CALC:MARK:FUNC:HARM:NHARM %s',
validator=truncated_discrete_set, values=np.arange(1, 26, 1))`;
`np.arange(1, 26, 1)` is `[1, 2, ..., 25]`. -/
def nharmonicsValues : List ℚ :=
  [1, 2, 3, 4, 5, 6, 7, 8, 9, 10, 11, 12, 13, 14, 15, 16, 17, 18, 19, 20,
   21, 22, 23, 24, 25]

/-- The `nharmonics` write-only property. -/
def nharmonics : PropertySpec ℚ :=
  { queryCmd := none
    writeCmd := some "CALC:MARK:FUNC:HARM:NHARM %s"
    validator := some (fun v => truncated_discrete_set v nharmonicsValues)
    toWire := formatNum
    fromWire := parseDecimal
    checkOnGet := false
    checkOnSet := false }

/-- `ref_offset_db = Instrument.control('DISP:TRAC:Y:RLEV:OFFS',
'DISP:TRAC:Y:RLEV:OFFS %sdB', validator=strict_range,
values=[-200, 200])` — no check flags. -/
def ref_offset_db : PropertySpec ℚ :=
  { queryCmd := some "DISP:TRAC:Y:RLEV:OFFS"
    writeCmd := some "DISP:TRAC:Y:RLEV:OFFS %sdB"
    validator := some (fun v => strict_range v [-200, 200])
    toWire := formatNum
    fromWire := parseDecimal
    checkOnGet := false
    checkOnSet := false }

end RohdeFSQ

/-! ### RohdeFSQ marker helpers and harmonics (from `rohdeFSQ.py`) -/

namespace RohdeFSQ

/-- `_validate_marker_number(num)`: `strict_range(num, np.arange(1, 4, 1))`;
`np.arange(1, 4, 1)` is `[1, 2, 3]`. -/
def validateMarkerNumber (num : ℚ) : Except PError ℚ :=
  strict_range num [1, 2, 3]

/-- `peak_search(num)`: validate the marker number, then
`self.write('CALC:MARK\x7b\x7d:PEAK'.format(num_value))`. -/
def peak_search (num : ℚ) (s : Session) : Except PError Unit × Session :=
  match validateMarkerNumber num with
  | .error e => (.error e, s)
  | .ok n => (.ok (), s.send (pyFormat "CALC:MARK\x7b\x7d:PEAK" [formatNum n]))

/-- `marker_state(num, state)`: validate the marker number and the state
(in `['OFF', 'ON']`), then `self.write("CALC:MARK\x7b\x7d \x7b\x7d".format(num_value, state_value))`. -/
def marker_state (num : ℚ) (state : String) (s : Session) :
    Except PError Unit × Session :=
  match validateMarkerNumber num with
  | .error e => (.error e, s)
  | .ok n =>
    match strict_discrete_set state ["OFF", "ON"] with
    | .error e => (.error e, s)
    | .ok st => (.ok (), s.send (pyFormat "CALC:MARK\x7b\x7d \x7b\x7d" [formatNum n, st]))

/-- `put_marker_at_freq(num, freq)`: validate the marker number, then
`self.write("CALC:MARK\x7b\x7d:X \x7b\x7d\x7b\x7d".format(num_value, freq, self.freq_unit))`. -/
def put_marker_at_freq (freq_unit : String) (num freq : ℚ) (s : Session) :
    Except PError Unit × Session :=
  match validateMarkerNumber num with
  | .error e => (.error e, s)
  | .ok n =>
    (.ok (), s.send (pyFormat "CALC:MARK\x7b\x7d:X \x7b\x7d\x7b\x7d"
      [formatNum n, formatNum freq, freq_unit]))

/-- `get_y_at_marker(num)`: validate the marker number, then
`value = self.ask("CALC:MARK\x7b\x7d:Y?".format(num_value)); return float(value)`. -/
def get_y_at_marker (num : ℚ) (s : Session) : Except PError ℚ × Session :=
  match validateMarkerNumber num with
  | .error e => (.error e, s)
  | .ok n =>
    let (raw, s') := s.query (pyFormat "CALC:MARK\x7b\x7d:Y?" [formatNum n])
    match parseDecimal raw with
    | none => (.error (.protocolError "unparsed response"), s')
    | some v => (.ok v, s')

/-- `set_ref_at_marker_level(num)`: validate, then
`self.write('CALC:MARK\x7b\x7d:FUNC:REF'.format(num_value))`. -/
def set_ref_at_marker_level (num : ℚ) (s : Session) : Except PError Unit × Session :=
  match validateMarkerNumber num with
  | .error e => (.error e, s)
  | .ok n => (.ok (), s.send (pyFormat "CALC:MARK\x7b\x7d:FUNC:REF" [formatNum n]))

/-- `set_center_freq_at_marker_freq(num)`: validate, then
`self.write('CALC:MARK\x7b\x7d:FUNC:CENT'.format(num_value))`. -/
def set_center_freq_at_marker_freq (num : ℚ) (s : Session) :
    Except PError Unit × Session :=
  match validateMarkerNumber num with
  | .error e => (.error e, s)
  | .ok n => (.ok (), s.send (pyFormat "CALC:MARK\x7b\x7d:FUNC:CENT" [formatNum n]))

/-- `get_harmonics(harmonic_power)`: validate `harmonic_power` against
`['Relative', 'Absolute']` before any I/O; ask
`'CALC:MARK:FUNC:HARM:LIST?'`; parse the comma-separated floats; filter
out every `-200` entry; in `Relative` mode return the filtered list; in
`Absolute` mode return `harm[0]` followed by `harm[0] + x` for each
later `x` (indexing `harm[0]` fails on an empty filtered list). -/
def get_harmonics (harmonic_power : String) (s : Session) :
    Except PError (List ℚ) × Session :=
  match strict_discrete_set harmonic_power ["Relative", "Absolute"] with
  | .error e => (.error e, s)
  | .ok hpwr =>
    let (raw, s') := s.query "CALC:MARK:FUNC:HARM:LIST?"
    match parseFloatList raw with
    | none => (.error (.protocolError "unparsed response"), s')
    | some listharm =>
      let harm := listharm.filter (fun x => x ≠ -200)
      if hpwr = "Relative" then (.ok harm, s')
      else
        match harm with
        | [] => (.error (.protocolError "empty harmonic list"), s')
        | h0 :: rest => (.ok (h0 :: rest.map (fun x => h0 + x)), s')

end RohdeFSQ

/-! ### RohdeSMB100A driver declarations (from `rohdeSMB100A.py`) -/

namespace RohdeSMB100A

/-- `self.freq_unit = "GHz"` in `__init__`. -/
def initialFreqUnit : String := "GHz"

/-- Getter of the `fixed_freq` property:
`value = self.ask(":FREQ?"); return value`. -/
def fixed_freq_get (s : Session) : String × Session := s.query ":FREQ?"

/-- Setter of the `fixed_freq` property:
`self.write(":FREQ \x7b\x7d\x7b\x7d".format(value, self.freq_unit))`. -/
def fixed_freq_set (freq_unit : String) (value : ℚ) (s : Session) : Session :=
  s.send (pyFormat ":FREQ \x7b\x7d\x7b\x7d" [formatNum value, freq_unit])

/-- `power_offset = Instrument.control(":POW:OFFS?", ":POW:OFFS %s",
validator=truncated_discrete_set, values=np.arange(-100, 100, 0.01),
check_set_errors=True, check_get_errors=True)`; `np.arange(-100, 100, 0.01)`
is the 20000-element grid `-100, -99.99, ..., 99.99`. -/
def powerOffsetValues : List ℚ := (List.range 20000).map (fun i => -100 + (i : ℚ) / 100)

/-- The `power_offset` property. -/
def power_offset : PropertySpec ℚ :=
  { queryCmd := some ":POW:OFFS?"
    writeCmd := some ":POW:OFFS %s"
    validator := some (fun v => truncated_discrete_set v powerOffsetValues)
    toWire := formatNum
    fromWire := parseDecimal
    checkOnGet := true
    checkOnSet := true }

/-- `output = Instrument.setting(":OUTP %s", validator=strict_discrete_set,
values={'OFF', 'ON'}, check_set_errors=True, check_get_errors=True)`. -/
def output : PropertySpec String :=
  { queryCmd := none
    writeCmd := some ":OUTP %s"
    validator := some (fun v => strict_discrete_set v ["OFF", "ON"])
    toWire := id
    fromWire := some
    checkOnGet := true
    checkOnSet := true }

end RohdeSMB100A

/-! ### Support lemmas -/

/-- The error-check hook never touches the wire: it only pops the error
queue. -/
theorem errorCheck_session (s : Session) :
    (errorCheck s).2 = { s with errorQueue := s.errorQueue.tail } := by
  rcases s with ⟨resp, eq, sent⟩
  cases eq with
  | nil => simp [errorCheck, Session.nextError]
  | cons e rest =>
    simp only [errorCheck, Session.nextError]
    split <;> simp

/-- The error-check hook on an empty error queue succeeds and leaves the
session unchanged. -/
theorem errorCheck_empty (s : Session) (h : s.errorQueue = []) :
    errorCheck s = (.ok (), s) := by
  rcases s with ⟨resp, eq, sent⟩
  simp only at h
  subst h
  simp [errorCheck, Session.nextError]

/-- `strict_range` over a two-element `[lo, hi]` value list with
`lo ≤ hi` is the interval membership test. -/
theorem strict_range_pair (lo hi v : ℚ) (h : lo ≤ hi) :
    strict_range v [lo, hi] =
      if lo ≤ v ∧ v ≤ hi then .ok v else .error (.invalidValue "out of range") := by
  simp [strict_range, listMin, listMax, min_eq_left h, max_eq_right h]

/-- `_validate_marker_number` accepts exactly the interval `[1, 3]`. -/
theorem validateMarkerNumber_eq (num : ℚ) :
    RohdeFSQ.validateMarkerNumber num =
      if 1 ≤ num ∧ num ≤ 3 then .ok num else .error (.invalidValue "out of range") := by
  have h1 : listMin 1 [2, 3] = (1 : ℚ) := by norm_num [listMin]
  have h2 : listMax 1 [2, 3] = (3 : ℚ) := by norm_num [listMax]
  simp [RohdeFSQ.validateMarkerNumber, strict_range, h1, h2]

/-- `r` is at least as close to `c` as `a` is, with ties resolved toward
the lower value. -/
def atLeastAsClose (c r a : ℚ) : Prop :=
  |c - r| < |c - a| ∨ (|c - r| = |c - a| ∧ r ≤ a)

/-- The fold inside `truncated_discrete_set` returns a member of the
candidate pool that is at least as close to `c` as every candidate, ties
resolved toward the lower neighbor. -/
theorem nearestTieLow_spec (c : ℚ) (l : List ℚ) : ∀ (best : ℚ),
    nearestTieLow c l best ∈ best :: l ∧
    ∀ a ∈ best :: l, atLeastAsClose c (nearestTieLow c l best) a := by
  induction l with
  | nil =>
    intro best
    refine ⟨by simp [nearestTieLow], ?_⟩
    intro a ha
    simp only [List.mem_singleton] at ha
    subst ha
    exact Or.inr ⟨rfl, le_refl _⟩
  | cons x rest ih =>
    intro best
    simp only [nearestTieLow]
    by_cases hc : |c - x| < |c - best| ∨ (|c - x| = |c - best| ∧ x < best)
    · rw [if_pos hc]
      obtain ⟨hmem, hbest⟩ := ih x
      constructor
      · rcases List.mem_cons.mp hmem with h | h
        · simp [h]
        · simp [h]
      · intro a ha
        rcases List.mem_cons.mp ha with h | h
        · -- `a = best`: chain through the new candidate `x`
          subst h
          have hx := hbest x (List.mem_cons_self x rest)
          rcases hx with h1 | ⟨h1, h2⟩ <;> rcases hc with h3 | ⟨h3, h4⟩
          · exact Or.inl (lt_trans h1 h3)
          · exact Or.inl (h3 ▸ h1)
          · exact Or.inl (h1 ▸ h3)
          · exact Or.inr ⟨h1.trans h3, h2.trans (le_of_lt h4)⟩
        · rcases List.mem_cons.mp h with h' | h'
          · rw [h']; exact hbest _ (List.mem_cons_self x rest)
          · exact hbest _ (List.mem_cons_of_mem x h')
    · rw [if_neg hc]
      push_neg at hc
      obtain ⟨hle, htie⟩ := hc
      obtain ⟨hmem, hbest⟩ := ih best
      constructor
      · rcases List.mem_cons.mp hmem with h | h
        · simp [h]
        · simp [h]
      · intro a ha
        rcases List.mem_cons.mp ha with h | h
        · rw [h]; exact hbest _ (List.mem_cons_self best rest)
        · rcases List.mem_cons.mp h with h' | h'
          · -- `a = x`: the kept incumbent is at least as close as `x`
            rw [h']
            have hb := hbest best (List.mem_cons_self best rest)
            rcases lt_or_eq_of_le hle with h1 | h1
            · rcases hb with h2 | ⟨h2, h3⟩
              · exact Or.inl (lt_trans h2 h1)
              · exact Or.inl (h2 ▸ h1)
            · have hxb : best ≤ x := htie h1.symm
              rcases hb with h2 | ⟨h2, h3⟩
              · exact Or.inl (h1 ▸ h2)
              · exact Or.inr ⟨h1 ▸ h2, h3.trans hxb⟩
          · exact hbest _ (List.mem_cons_of_mem best h')

/-- `truncated_discrete_set` on a non-empty value list succeeds with a
member nearest (ties toward the lower neighbor) to the clamped value. -/
theorem truncated_discrete_set_spec (value v : ℚ) (vs : List ℚ) :
    ∃ r, truncated_discrete_set value (v :: vs) = .ok r ∧ r ∈ v :: vs ∧
      ∀ a ∈ v :: vs,
        atLeastAsClose (clampQ value (listMin v vs) (listMax v vs)) r a := by
  obtain ⟨hmem, hbest⟩ :=
    nearestTieLow_spec (clampQ value (listMin v vs) (listMax v vs)) vs v
  exact ⟨_, rfl, hmem, hbest⟩

/-- Splicing a `%s` template split into `[pre, suf]`. -/
theorem formatWrite_split (tmpl pre suf tok : String)
    (h : splitTwoChar '%' 's' tmpl.data = [pre, suf]) :
    formatWrite tmpl tok = pre ++ tok ++ suf := by
  simp [formatWrite, h, joinWith]

/-- Splicing a one-site format template split into `[pre, suf]`. -/
theorem pyFormat_one (tmpl pre suf a : String)
    (h : splitTwoChar '\x7b' '\x7d' tmpl.data = [pre, suf]) :
    pyFormat tmpl [a] = pre ++ a ++ suf := by
  simp [pyFormat, h, spliceArgs]

/-- Splicing a two-site format template split into `[pre, mid, suf]`. -/
theorem pyFormat_two (tmpl pre mid suf a b : String)
    (h : splitTwoChar '\x7b' '\x7d' tmpl.data = [pre, mid, suf]) :
    pyFormat tmpl [a, b] = pre ++ a ++ mid ++ b ++ suf := by
  simp [pyFormat, h, spliceArgs]
  simp [String.append_assoc]

/-- Splicing a three-site format template split into `[p1, p2, p3, p4]`. -/
theorem pyFormat_three (tmpl p1 p2 p3 p4 a b c : String)
    (h : splitTwoChar '\x7b' '\x7d' tmpl.data = [p1, p2, p3, p4]) :
    pyFormat tmpl [a, b, c] = p1 ++ a ++ p2 ++ b ++ p3 ++ c ++ p4 := by
  simp [pyFormat, h, spliceArgs]
  simp [String.append_assoc]

/-- The write half of `ask` always logs exactly the query command. -/
theorem query_sent (s : Session) (cmd : String) :
    (s.query cmd).2.sent = s.sent ++ [cmd] := by
  rcases s with ⟨resp, eq, sent⟩
  cases resp <;> simp [Session.query]

/-! ### Claim theorems -/

/-- Claim C1: for the `continuous_mode` properties (query `INIT:CONT?`,
write `INIT:CONT %s`, discrete-set validator over OFF/ON), setting
`"OFF"` sends exactly the wire command `INIT:CONT OFF`, and setting the
non-member `"MAYBE"` fails with `InvalidValue` with no wire command
sent; this holds for the AgilentU2040X declaration (no error check) and
for the RohdeFSQ declaration (with `check_set_errors`, where the write
is on the wire whatever the error queue holds). -/
theorem claim_C1 (s : Session) :
    doSet AgilentU2040X.continuous_mode "OFF" s = (.ok (), s.send "INIT:CONT OFF") ∧
    doSet AgilentU2040X.continuous_mode "MAYBE" s =
      (.error (.invalidValue "not a member"), s) ∧
    (doSet RohdeFSQ.continuous_mode "OFF" s).2.sent = s.sent ++ ["INIT:CONT OFF"] ∧
    doSet RohdeFSQ.continuous_mode "MAYBE" s =
      (.error (.invalidValue "not a member"), s) := by
  have hv : strict_discrete_set "OFF" ["OFF", "ON"] = .ok "OFF" := by decide
  have hv2 : strict_discrete_set "MAYBE" ["OFF", "ON"] =
      .error (.invalidValue "not a member") := by decide
  have hw : formatWrite "INIT:CONT %s" "OFF" = "INIT:CONT OFF" := by decide
  refine ⟨?_, ?_, ?_, ?_⟩
  · simp [doSet, AgilentU2040X.continuous_mode, hv, hw]
  · simp [doSet, AgilentU2040X.continuous_mode, hv2]
  · simp [doSet, RohdeFSQ.continuous_mode, hv, hw, errorCheck_session, Session.send]
  · simp [doSet, RohdeFSQ.continuous_mode, hv2]

/-- Claim C2 (amended): `sweep_points` is declared with the strict
discrete-set validator over `[155, 313, 625, 1251, 1999, 2501, 5001,
10001, 20001, 30001]` and write template `SWE   :POIN %s`; setting a
non-member such as `10` fails with `InvalidValue` and no wire command is
sent, while setting the member `155` sends `SWE   :POIN 155`. -/
theorem claim_C2 (v : ℚ) (s : Session)
    (hv : v ∉ RohdeFSQ.sweepPointsValues) (hq : s.errorQueue = []) :
    doSet RohdeFSQ.sweep_points v s = (.error (.invalidValue "not a member"), s) ∧
    doSet RohdeFSQ.sweep_points 155 s = (.ok (), s.send "SWE   :POIN 155") := by
  have hmem : (155 : ℚ) ∈ RohdeFSQ.sweepPointsValues := by decide
  have hfmt : formatNum 155 = "155" := by decide
  have hw : formatWrite "SWE   :POIN %s" "155" = "SWE   :POIN 155" := by decide
  have hec : errorCheck (s.send "SWE   :POIN 155") = (.ok (), s.send "SWE   :POIN 155") :=
    errorCheck_empty _ (by simp [Session.send, hq])
  constructor
  · simp [doSet, RohdeFSQ.sweep_points, strict_discrete_set, hv]
  · simp [doSet, RohdeFSQ.sweep_points, strict_discrete_set, hmem, hfmt, hw, hec]

/-- Claim C2, counterexample to the claim as stated: `sweep_points` is
declared with the strict (not truncated) discrete-set validator and the
write template `SWE   :POIN %s`, so setting `10` does not snap to `155`
and does not send `SWE:POIN 155` — it fails with `InvalidValue` and
nothing is sent. -/
theorem claim_C2_counterexample :
    doSet RohdeFSQ.sweep_points 10 stubSession =
      (.error (.invalidValue "not a member"), stubSession) ∧
    (doSet RohdeFSQ.sweep_points 10 stubSession).2.sent = [] ∧
    RohdeFSQ.sweep_points.writeCmd = some "SWE   :POIN %s" := by
  refine ⟨by decide, by decide, rfl⟩

/-- Claim C2, witness: the amended theorem applied at `10` (rejected,
nothing sent) and `155` (sent as `SWE   :POIN 155`). -/
theorem claim_C2_witness :
    (10 : ℚ) ∉ RohdeFSQ.sweepPointsValues ∧
    doSet RohdeFSQ.sweep_points 10 stubSession =
      (.error (.invalidValue "not a member"), stubSession) ∧
    doSet RohdeFSQ.sweep_points 155 stubSession =
      (.ok (), stubSession.send "SWE   :POIN 155") :=
  ⟨by decide, (claim_C2 10 stubSession (by decide) rfl).1,
    (claim_C2 10 stubSession (by decide) rfl).2⟩

/-- Claim C3: for every numeric value and every non-empty numeric value
list, `truncated_discrete_set` succeeds and returns a member of the list
that is nearest by absolute distance (ties toward the lower neighbor) to
the value clamped to `[min(values), max(values)]`; in particular every
set of `nharmonics` (values `1..25`) sends a member of that list. -/
theorem claim_C3 (value v : ℚ) (vs values : List ℚ) (hvals : values = v :: vs) :
    (∃ r, truncated_discrete_set value values = .ok r ∧ r ∈ values ∧
       ∀ a ∈ values, atLeastAsClose (clampQ value (listMin v vs) (listMax v vs)) r a) ∧
    ∀ (w : ℚ) (s : Session), ∃ r ∈ RohdeFSQ.nharmonicsValues,
      doSet RohdeFSQ.nharmonics w s =
        (.ok (), s.send ("CALC:MARK:FUNC:HARM:NHARM " ++ formatNum r)) := by
  constructor
  · subst hvals
    exact truncated_discrete_set_spec value v vs
  · intro w s
    obtain ⟨r, hr, hmem, _⟩ := truncated_discrete_set_spec w 1
      [2, 3, 4, 5, 6, 7, 8, 9, 10, 11, 12, 13, 14, 15, 16, 17, 18, 19, 20,
       21, 22, 23, 24, 25]
    have hvals2 : RohdeFSQ.nharmonicsValues =
        1 :: [2, 3, 4, 5, 6, 7, 8, 9, 10, 11, 12, 13, 14, 15, 16, 17, 18, 19, 20,
              21, 22, 23, 24, 25] := rfl
    have hw := formatWrite_split "CALC:MARK:FUNC:HARM:NHARM %s"
      "CALC:MARK:FUNC:HARM:NHARM " "" (formatNum r) rfl
    refine ⟨r, by rw [hvals2]; exact hmem, ?_⟩
    simp [doSet, RohdeFSQ.nharmonics, hvals2, hr, hw]

/-- Claim C3, witness: the truncated set `[155, 313, 625, 1251]` at
value `10`, and the `nharmonics` conjunct. -/
theorem claim_C3_witness :
    ([155, 313, 625, 1251] : List ℚ) = 155 :: [313, 625, 1251] ∧
    (∃ r, truncated_discrete_set 10 [155, 313, 625, 1251] = .ok r ∧
       r ∈ ([155, 313, 625, 1251] : List ℚ) ∧
       ∀ a ∈ ([155, 313, 625, 1251] : List ℚ),
         atLeastAsClose (clampQ 10 (listMin 155 [313, 625, 1251])
           (listMax 155 [313, 625, 1251])) r a) ∧
    ∀ (w : ℚ) (s : Session), ∃ r ∈ RohdeFSQ.nharmonicsValues,
      doSet RohdeFSQ.nharmonics w s =
        (.ok (), s.send ("CALC:MARK:FUNC:HARM:NHARM " ++ formatNum r)) :=
  ⟨rfl, (claim_C3 10 155 [313, 625, 1251] [155, 313, 625, 1251] rfl).1,
    (claim_C3 10 155 [313, 625, 1251] [155, 313, 625, 1251] rfl).2⟩

/-- Claim C4: for `ref_offset_db` (range validator over `[-200, 200]`),
every value in the closed interval — boundaries included — is accepted
and passed through unchanged to the wire (no clamping); setting `250`
fails with `InvalidValue` before any write; and a get whose raw response
is `"5.00"` returns the parsed logical value `5.0`. -/
theorem claim_C4 (v : ℚ) (s s2 : Session) (rest : List String)
    (h1 : -200 ≤ v) (h2 : v ≤ 200) (hresp : s2.responses = "5.00" :: rest) :
    strict_range v [-200, 200] = .ok v ∧
    doSet RohdeFSQ.ref_offset_db v s =
      (.ok (), s.send ("DISP:TRAC:Y:RLEV:OFFS " ++ formatNum v ++ "dB")) ∧
    doSet RohdeFSQ.ref_offset_db 250 s = (.error (.invalidValue "out of range"), s) ∧
    doGet RohdeFSQ.ref_offset_db s2 =
      (.ok 5, { s2 with responses := rest,
                        sent := s2.sent ++ ["DISP:TRAC:Y:RLEV:OFFS"] }) := by
  have hsr : strict_range v [-200, 200] = .ok v := by
    rw [strict_range_pair _ _ _ (by norm_num)]
    simp [h1, h2]
  have hsr2 : strict_range 250 [-200, 200] = .error (.invalidValue "out of range") := by
    rw [strict_range_pair _ _ _ (by norm_num)]
    norm_num
  have hw := formatWrite_split "DISP:TRAC:Y:RLEV:OFFS %sdB" "DISP:TRAC:Y:RLEV:OFFS " "dB"
    (formatNum v) rfl
  have hp : parseDecimal "5.00" = some 5 := by decide
  refine ⟨hsr, ?_, ?_, ?_⟩
  · simp [doSet, RohdeFSQ.ref_offset_db, hsr, hw]
  · simp [doSet, RohdeFSQ.ref_offset_db, hsr2]
  · rcases s2 with ⟨resp2, eq2, sent2⟩
    simp only at hresp
    subst hresp
    simp [doGet, RohdeFSQ.ref_offset_db, Session.query, hp]

/-- Claim C4, witness: the boundary value `200` is accepted, `250` is
rejected before any write, and the get parses `"5.00"` to `5`. -/
theorem claim_C4_witness :
    (-200 : ℚ) ≤ 200 ∧ (200 : ℚ) ≤ 200 ∧
    strict_range 200 [-200, 200] = .ok 200 ∧
    doSet RohdeFSQ.ref_offset_db 200 stubSession =
      (.ok (), stubSession.send ("DISP:TRAC:Y:RLEV:OFFS " ++ formatNum 200 ++ "dB")) ∧
    doSet RohdeFSQ.ref_offset_db 250 stubSession =
      (.error (.invalidValue "out of range"), stubSession) ∧
    doGet RohdeFSQ.ref_offset_db { stubSession with responses := ["5.00"] } =
      (.ok 5, { stubSession with sent := ["DISP:TRAC:Y:RLEV:OFFS"] }) := by
  have h := claim_C4 200 stubSession { stubSession with responses := ["5.00"] } []
    (by decide) (by decide) rfl
  exact ⟨by decide, by decide, h.1, h.2.1, h.2.2.1, h.2.2.2⟩

/-- Claim C5: for `freq_mode` (declared with `check_set_errors`), when
the error queue returns a non-zero `(code, message)` after the write,
the set call fails with `InstrumentError` carrying that code and
message, while the write itself was performed exactly once and is
neither retried nor undone. -/
theorem claim_C5 (code : Int) (msg : String) (rest : List (Int × String)) (s : Session)
    (hq : s.errorQueue = (code, msg) :: rest) (hc : code ≠ 0) :
    doSet RohdeFSQ.freq_mode "FIXED" s =
      (.error (.instrumentError code msg),
        { s with errorQueue := rest, sent := s.sent ++ ["FREQ:MODE FIXED"] }) := by
  have hv : strict_discrete_set "FIXED" ["FIXED", "SWEEP"] = .ok "FIXED" := by decide
  have hw : formatWrite "FREQ:MODE %s" "FIXED" = "FREQ:MODE FIXED" := by decide
  rcases s with ⟨resp, eq, sent⟩
  simp only at hq
  subst hq
  simp [doSet, RohdeFSQ.freq_mode, hv, hw, Session.send, errorCheck, Session.nextError, hc]

/-- Claim C5, witness: error queue holding `(113, "undefined header")`. -/
theorem claim_C5_witness :
    ({ stubSession with errorQueue := [(113, "undefined header")] } : Session).errorQueue =
      ((113 : Int), "undefined header") :: [] ∧ (113 : Int) ≠ 0 ∧
    doSet RohdeFSQ.freq_mode "FIXED"
        { stubSession with errorQueue := [(113, "undefined header")] } =
      (.error (.instrumentError 113 "undefined header"),
        { stubSession with sent := ["FREQ:MODE FIXED"] }) :=
  ⟨rfl, by decide,
    claim_C5 113 "undefined header" []
      { stubSession with errorQueue := [(113, "undefined header")] } rfl (by decide)⟩

/-- Claim C6: for every writable property with a validator, validation
runs before any transport I/O — whenever the validator rejects the
candidate value, the set fails with that `InvalidValue` and the session
is unchanged (no `ask` or `write` was made). -/
theorem claim_C6 {α : Type} (p : PropertySpec α) (f : α → Except PError α) (v : α)
    (r tmpl : String) (s : Session)
    (hw : p.writeCmd = some tmpl) (hv : p.validator = some f)
    (he : f v = .error (.invalidValue r)) :
    doSet p v s = (.error (.invalidValue r), s) := by
  simp [doSet, hw, hv, he]

/-- Claim C6, witness: `output` (strict set over OFF/ON with
`check_set_errors`) rejecting `"MAYBE"` with the session untouched. -/
theorem claim_C6_witness :
    RohdeSMB100A.output.writeCmd = some ":OUTP %s" ∧
    (fun v => strict_discrete_set v ["OFF", "ON"]) "MAYBE" =
      .error (.invalidValue "not a member") ∧
    doSet RohdeSMB100A.output "MAYBE" stubSession =
      (.error (.invalidValue "not a member"), stubSession) :=
  ⟨rfl, by decide,
    claim_C6 RohdeSMB100A.output (fun v => strict_discrete_set v ["OFF", "ON"])
      "MAYBE" "not a member" ":OUTP %s" stubSession rfl rfl (by decide)⟩

/-- Claim C7: gets are cache-free and deterministic in the raw response:
performing the same get twice without an intervening set, against a
session whose queue returns the same raw string both times, issues a
fresh query each time (the query command is on the wire twice) and
yields the same value both times; shown for `AgilentU2040X.freq` and
`RohdeSMB100A.fixed_freq`. -/
theorem claim_C7 (s t : Session) (raw : String) (rest rest2 : List String)
    (hs : s.responses = raw :: raw :: rest) (ht : t.responses = raw :: raw :: rest2) :
    (AgilentU2040X.freq_get s).1 = raw ∧
    (AgilentU2040X.freq_get (AgilentU2040X.freq_get s).2).1 = raw ∧
    (AgilentU2040X.freq_get s).2.sent = s.sent ++ ["FREQ?"] ∧
    (AgilentU2040X.freq_get (AgilentU2040X.freq_get s).2).2.sent =
      s.sent ++ ["FREQ?", "FREQ?"] ∧
    (RohdeSMB100A.fixed_freq_get t).1 = raw ∧
    (RohdeSMB100A.fixed_freq_get (RohdeSMB100A.fixed_freq_get t).2).1 = raw ∧
    (RohdeSMB100A.fixed_freq_get t).2.sent = t.sent ++ [":FREQ?"] ∧
    (RohdeSMB100A.fixed_freq_get (RohdeSMB100A.fixed_freq_get t).2).2.sent =
      t.sent ++ [":FREQ?", ":FREQ?"] := by
  rcases s with ⟨resp, eq, sent⟩
  rcases t with ⟨resp2, eq2, sent2⟩
  simp only at hs ht
  subst hs
  subst ht
  simp [AgilentU2040X.freq_get, RohdeSMB100A.fixed_freq_get, Session.query]

/-- Claim C7, witness: two gets against a stub answering `"7.1"` twice. -/
theorem claim_C7_witness :
    ({ stubSession with responses := ["7.1", "7.1"] } : Session).responses =
      "7.1" :: "7.1" :: [] ∧
    (AgilentU2040X.freq_get { stubSession with responses := ["7.1", "7.1"] }).1 = "7.1" ∧
    (AgilentU2040X.freq_get
      (AgilentU2040X.freq_get { stubSession with responses := ["7.1", "7.1"] }).2).1 =
      "7.1" :=
  have h := claim_C7 { stubSession with responses := ["7.1", "7.1"] }
    { stubSession with responses := ["7.1", "7.1"] } "7.1" [] [] rfl rfl
  ⟨rfl, h.1, h.2.1⟩

/-- Claim C8: every marker-numbered operation on RohdeFSQ validates the
marker number against the range `[1, 3]` first: numbers in `[1, 3]` lead
to the corresponding `CALC:MARK{num}...` command on the wire, while
numbers below `1` or above `3` — in particular marker `4`, despite the
docstrings advertising four markers — are rejected with a validation
error before any command is sent. -/
theorem claim_C8 (num freq : ℚ) (state u : String) (s : Session)
    (hstate : state ∈ (["OFF", "ON"] : List String)) :
    (1 ≤ num ∧ num ≤ 3 →
      RohdeFSQ.peak_search num s =
        (.ok (), s.send ("CALC:MARK" ++ formatNum num ++ ":PEAK")) ∧
      RohdeFSQ.marker_state num state s =
        (.ok (), s.send ("CALC:MARK" ++ formatNum num ++ " " ++ state)) ∧
      RohdeFSQ.put_marker_at_freq u num freq s =
        (.ok (), s.send ("CALC:MARK" ++ formatNum num ++ ":X " ++ formatNum freq ++ u)) ∧
      (RohdeFSQ.get_y_at_marker num s).2.sent =
        s.sent ++ ["CALC:MARK" ++ formatNum num ++ ":Y?"] ∧
      RohdeFSQ.set_ref_at_marker_level num s =
        (.ok (), s.send ("CALC:MARK" ++ formatNum num ++ ":FUNC:REF")) ∧
      RohdeFSQ.set_center_freq_at_marker_freq num s =
        (.ok (), s.send ("CALC:MARK" ++ formatNum num ++ ":FUNC:CENT"))) ∧
    (num < 1 ∨ 3 < num →
      RohdeFSQ.peak_search num s = (.error (.invalidValue "out of range"), s) ∧
      RohdeFSQ.marker_state num state s = (.error (.invalidValue "out of range"), s) ∧
      RohdeFSQ.put_marker_at_freq u num freq s =
        (.error (.invalidValue "out of range"), s) ∧
      RohdeFSQ.get_y_at_marker num s = (.error (.invalidValue "out of range"), s) ∧
      RohdeFSQ.set_ref_at_marker_level num s =
        (.error (.invalidValue "out of range"), s) ∧
      RohdeFSQ.set_center_freq_at_marker_freq num s =
        (.error (.invalidValue "out of range"), s)) := by
  constructor
  · intro h
    have hval : RohdeFSQ.validateMarkerNumber num = .ok num := by
      rw [validateMarkerNumber_eq, if_pos h]
    have hst : strict_discrete_set state ["OFF", "ON"] = .ok state := by
      simp [strict_discrete_set, hstate]
    have k1 := pyFormat_one "CALC:MARK\x7b\x7d:PEAK" "CALC:MARK" ":PEAK" (formatNum num) rfl
    have k2 := pyFormat_two "CALC:MARK\x7b\x7d \x7b\x7d" "CALC:MARK" " " ""
      (formatNum num) state rfl
    have k3 := pyFormat_three "CALC:MARK\x7b\x7d:X \x7b\x7d\x7b\x7d" "CALC:MARK" ":X " "" ""
      (formatNum num) (formatNum freq) u rfl
    have k4 := pyFormat_one "CALC:MARK\x7b\x7d:Y?" "CALC:MARK" ":Y?" (formatNum num) rfl
    have k5 := pyFormat_one "CALC:MARK\x7b\x7d:FUNC:REF" "CALC:MARK" ":FUNC:REF"
      (formatNum num) rfl
    have k6 := pyFormat_one "CALC:MARK\x7b\x7d:FUNC:CENT" "CALC:MARK" ":FUNC:CENT"
      (formatNum num) rfl
    refine ⟨?_, ?_, ?_, ?_, ?_, ?_⟩
    · simp [RohdeFSQ.peak_search, hval, k1]
    · simp [RohdeFSQ.marker_state, hval, hst, k2]
    · simp [RohdeFSQ.put_marker_at_freq, hval, k3]
    · simp only [RohdeFSQ.get_y_at_marker, hval, k4]
      cases hpd : parseDecimal (s.query ("CALC:MARK" ++ formatNum num ++ ":Y?")).1 <;>
        simp [hpd, query_sent]
    · simp [RohdeFSQ.set_ref_at_marker_level, hval, k5]
    · simp [RohdeFSQ.set_center_freq_at_marker_freq, hval, k6]
  · intro h
    have hcond : ¬(1 ≤ num ∧ num ≤ 3) := by
      rcases h with h | h <;> intro hh <;> rcases hh with ⟨ha, hb⟩ <;> linarith
    have hval : RohdeFSQ.validateMarkerNumber num =
        .error (.invalidValue "out of range") := by
      rw [validateMarkerNumber_eq, if_neg hcond]
    refine ⟨?_, ?_, ?_, ?_, ?_, ?_⟩ <;>
      simp [RohdeFSQ.peak_search, RohdeFSQ.marker_state, RohdeFSQ.put_marker_at_freq,
        RohdeFSQ.get_y_at_marker, RohdeFSQ.set_ref_at_marker_level,
        RohdeFSQ.set_center_freq_at_marker_freq, hval]

/-- Claim C8, witness: marker `2` is accepted by every operation and
marker `4` is rejected by every operation. -/
theorem claim_C8_witness :
    ("ON" ∈ (["OFF", "ON"] : List String)) ∧
    ((1 : ℚ) ≤ 2 ∧ (2 : ℚ) ≤ 3 →
      RohdeFSQ.peak_search 2 stubSession =
        (.ok (), stubSession.send ("CALC:MARK" ++ formatNum 2 ++ ":PEAK")) ∧
      RohdeFSQ.marker_state 2 "ON" stubSession =
        (.ok (), stubSession.send ("CALC:MARK" ++ formatNum 2 ++ " " ++ "ON")) ∧
      RohdeFSQ.put_marker_at_freq "MHz" 2 900 stubSession =
        (.ok (), stubSession.send
          ("CALC:MARK" ++ formatNum 2 ++ ":X " ++ formatNum 900 ++ "MHz")) ∧
      (RohdeFSQ.get_y_at_marker 2 stubSession).2.sent =
        stubSession.sent ++ ["CALC:MARK" ++ formatNum 2 ++ ":Y?"] ∧
      RohdeFSQ.set_ref_at_marker_level 2 stubSession =
        (.ok (), stubSession.send ("CALC:MARK" ++ formatNum 2 ++ ":FUNC:REF")) ∧
      RohdeFSQ.set_center_freq_at_marker_freq 2 stubSession =
        (.ok (), stubSession.send ("CALC:MARK" ++ formatNum 2 ++ ":FUNC:CENT"))) ∧
    ((4 : ℚ) < 1 ∨ (3 : ℚ) < 4 →
      RohdeFSQ.peak_search 4 stubSession =
        (.error (.invalidValue "out of range"), stubSession) ∧
      RohdeFSQ.marker_state 4 "ON" stubSession =
        (.error (.invalidValue "out of range"), stubSession) ∧
      RohdeFSQ.put_marker_at_freq "MHz" 4 900 stubSession =
        (.error (.invalidValue "out of range"), stubSession) ∧
      RohdeFSQ.get_y_at_marker 4 stubSession =
        (.error (.invalidValue "out of range"), stubSession) ∧
      RohdeFSQ.set_ref_at_marker_level 4 stubSession =
        (.error (.invalidValue "out of range"), stubSession) ∧
      RohdeFSQ.set_center_freq_at_marker_freq 4 stubSession =
        (.error (.invalidValue "out of range"), stubSession)) :=
  ⟨by decide, (claim_C8 2 900 "ON" "MHz" stubSession (by decide)).1,
    (claim_C8 4 900 "ON" "MHz" stubSession (by decide)).2⟩

/-- Claim C9: `get_harmonics` validates the mode before the query (any
mode outside Relative/Absolute is rejected with no I/O), parses the
comma-separated response to floats, discards every `-200` entry, returns
the filtered list in Relative mode, and in Absolute mode returns the
same-length list whose head is `h0` and whose later elements are
`h0 + hi` — failing when the filtered list is empty. -/
theorem claim_C9 (s : Session) (raw : String) (rest : List String) (l : List ℚ)
    (hresp : s.responses = raw :: rest) (hparse : parseFloatList raw = some l) :
    RohdeFSQ.get_harmonics "Relative" s =
      (.ok (l.filter (fun x => x ≠ -200)),
       { s with responses := rest, sent := s.sent ++ ["CALC:MARK:FUNC:HARM:LIST?"] }) ∧
    (∀ h0 t, l.filter (fun x => x ≠ -200) = h0 :: t →
      RohdeFSQ.get_harmonics "Absolute" s =
        (.ok (h0 :: t.map (fun x => h0 + x)),
         { s with responses := rest, sent := s.sent ++ ["CALC:MARK:FUNC:HARM:LIST?"] })) ∧
    (l.filter (fun x => x ≠ -200) = [] →
      RohdeFSQ.get_harmonics "Absolute" s =
        (.error (.protocolError "empty harmonic list"),
         { s with responses := rest, sent := s.sent ++ ["CALC:MARK:FUNC:HARM:LIST?"] })) ∧
    (∀ hp, hp ∉ (["Relative", "Absolute"] : List String) →
      RohdeFSQ.get_harmonics hp s = (.error (.invalidValue "not a member"), s)) := by
  have hrel : strict_discrete_set "Relative" ["Relative", "Absolute"] =
      .ok "Relative" := by decide
  have habs : strict_discrete_set "Absolute" ["Relative", "Absolute"] =
      .ok "Absolute" := by decide
  rcases s with ⟨resp, eq, sent⟩
  simp only at hresp
  subst hresp
  refine ⟨?_, ?_, ?_, ?_⟩
  · simp [RohdeFSQ.get_harmonics, hrel, Session.query, hparse]
  · intro h0 t hf
    simp only [ne_eq, decide_not] at hf
    simp [RohdeFSQ.get_harmonics, habs, Session.query, hparse, hf]
  · intro hf
    simp only [ne_eq, decide_not] at hf
    simp [RohdeFSQ.get_harmonics, habs, Session.query, hparse, hf]
  · intro hp hnm
    simp [RohdeFSQ.get_harmonics, strict_discrete_set, hnm]

/-- Claim C9, witness: response `"-10,-20,-200,-30"` in Relative mode
(the `-200` entry is discarded). -/
theorem claim_C9_witness :
    ({ stubSession with responses := ["-10,-20,-200,-30"] } : Session).responses =
      "-10,-20,-200,-30" :: [] ∧
    parseFloatList "-10,-20,-200,-30" = some [-10, -20, -200, -30] ∧
    RohdeFSQ.get_harmonics "Relative"
        { stubSession with responses := ["-10,-20,-200,-30"] } =
      (.ok (([-10, -20, -200, -30] : List ℚ).filter (fun x => x ≠ -200)),
       { stubSession with sent := ["CALC:MARK:FUNC:HARM:LIST?"] }) :=
  have h := claim_C9 { stubSession with responses := ["-10,-20,-200,-30"] }
    "-10,-20,-200,-30" [] [-10, -20, -200, -30] rfl (by decide)
  ⟨rfl, by decide, h.1⟩

/-- Claim C10: every unit-suffixed frequency setter performs no
validation and writes exactly its command prefix followed by the
formatted value immediately concatenated with the current `freq_unit`
string; every driver initializes `freq_unit` to `"GHz"` in its
constructor, and since the setters are stated for every unit string,
changing `freq_unit` changes the suffix of every subsequent write. -/
theorem claim_C10 (u : String) (v : ℚ) (s : Session) :
    AgilentU2040X.freq_set u v s = s.send ("FREQ " ++ formatNum v ++ u) ∧
    RohdeFSQ.center_freq_set u v s = s.send (":FREQ:CENT " ++ formatNum v ++ u) ∧
    RohdeFSQ.freq_span_set u v s = s.send (":FREQ:SPAN " ++ formatNum v ++ u) ∧
    RohdeFSQ.freq_start_set u v s = s.send (":FREQ:STAR " ++ formatNum v ++ u) ∧
    RohdeFSQ.freq_stop_set u v s = s.send (":FREQ:STOP " ++ formatNum v ++ u) ∧
    RohdeFSQ.res_bw_set u v s = s.send ("BAND " ++ formatNum v ++ u) ∧
    RohdeFSQ.video_bw_set u v s = s.send ("BAND:VID " ++ formatNum v ++ u) ∧
    RohdeSMB100A.fixed_freq_set u v s = s.send (":FREQ " ++ formatNum v ++ u) ∧
    AgilentU2040X.initialFreqUnit = "GHz" ∧
    RohdeFSQ.initialFreqUnit = "GHz" ∧
    RohdeSMB100A.initialFreqUnit = "GHz" := by
  have h1 := pyFormat_two "FREQ \x7b\x7d\x7b\x7d" "FREQ " "" "" (formatNum v) u rfl
  have h2 := pyFormat_two ":FREQ:CENT \x7b\x7d\x7b\x7d" ":FREQ:CENT " "" "" (formatNum v) u rfl
  have h3 := pyFormat_two ":FREQ:SPAN \x7b\x7d\x7b\x7d" ":FREQ:SPAN " "" "" (formatNum v) u rfl
  have h4 := pyFormat_two ":FREQ:STAR \x7b\x7d\x7b\x7d" ":FREQ:STAR " "" "" (formatNum v) u rfl
  have h5 := pyFormat_two ":FREQ:STOP \x7b\x7d\x7b\x7d" ":FREQ:STOP " "" "" (formatNum v) u rfl
  have h6 := pyFormat_two "BAND \x7b\x7d\x7b\x7d" "BAND " "" "" (formatNum v) u rfl
  have h7 := pyFormat_two "BAND:VID \x7b\x7d\x7b\x7d" "BAND:VID " "" "" (formatNum v) u rfl
  have h8 := pyFormat_two ":FREQ \x7b\x7d\x7b\x7d" ":FREQ " "" "" (formatNum v) u rfl
  refine ⟨?_, ?_, ?_, ?_, ?_, ?_, ?_, ?_, rfl, rfl, rfl⟩ <;>
    simp [AgilentU2040X.freq_set, RohdeFSQ.center_freq_set, RohdeFSQ.freq_span_set,
      RohdeFSQ.freq_start_set, RohdeFSQ.freq_stop_set, RohdeFSQ.res_bw_set,
      RohdeFSQ.video_bw_set, RohdeSMB100A.fixed_freq_set, h1, h2, h3, h4, h5, h6, h7, h8]
